import Mathlib

/-!
Verification development for the ticket lifecycle & archival engine of a
Discord bot (cogs `ticket_tool.py` and `support_ticket.py`).

The Python source is shallowly embedded: pure fragments become Lean
functions, the stateful fragments (counter file, Mongo collections, the
channel set) become explicit state passing, and the effectful close-confirm
handler becomes an event trace.  Machine integers in the source are
arbitrary-precision Python ints, so `Nat` is the faithful carrier.
-/

namespace TicketBot

/-- Concatenation of a list of strings, in order.  This is the shape of the
Python `html_content += ...` accumulation loops. -/
def joinStr : List String → String
  | [] => ""
  | s :: r => s ++ joinStr r

/-- Python `html.escape` (with its default `quote=True`) on one character:
`&`, `<`, `>`, `"` and the apostrophe become HTML entities, everything else
is kept.  The source performs sequential `str.replace` passes with `&`
first; that is equivalent to this character-wise map because no entity text
contains a character rewritten by a later pass. -/
def htmlEscapeChar (c : Char) : String :=
  if c = '&' then "&amp;"
  else if c = '<' then "&lt;"
  else if c = '>' then "&gt;"
  else if c = '"' then "&quot;"
  else if c = Char.ofNat 39 then "&#x27;"
  else String.singleton c

/-- Python `html.escape` with `quote=True`, as used for every escaped
insertion in `create_transcript` and `create_support_transcript`. -/
def htmlEscape (s : String) : String := joinStr (s.data.map htmlEscapeChar)

/-- Function `get_next_ticket_number`, local fallback path (taken when `mongo_db is
None`): the state of `ticket_counter.txt` is `none` when the file does not
exist and `some n` when it holds the integer `n`.  The function reads the
counter (a missing file counts as 0), adds one, writes the new value back,
and returns the new value.  `get_next_support_ticket_number` is the same
function on `support_ticket_counter.txt`. -/
def get_next_ticket_number_local (file : Option Nat) : Nat × Option Nat :=
  let count := (match file with | some n => n | none => 0) + 1
  (count, some count)

/-- Runs `N` successive calls of the local-fallback allocator in one scope,
threading the counter-file state; returns the issued numbers in call order
together with the final file state. -/
def runLocalAllocator : Nat → Option Nat → List Nat × Option Nat
  | 0, f => ([], f)
  | Nat.succ n, f =>
    let r := get_next_ticket_number_local f
    let rest := runLocalAllocator n r.2
    (r.1 :: rest.1, rest.2)

/-- A Discord role: its snowflake id, its name, and the ids of the guild
members holding it (`role.members`). -/
structure Role where
  id : Nat
  name : String
  members : List Nat
deriving DecidableEq

/-- A guild member as the cogs see it: `user.id` and `user.roles` in the
order the platform enumerates them. -/
structure Member where
  id : Nat
  roles : List Role
deriving DecidableEq

/-- A key of the `overwrites` dict passed to `create_text_channel`:
`guild.default_role`, a member (`interaction.user`, `guild.me`, or a gang
member), or a role (the staff role). -/
inductive PermTarget
  | defaultRole
  | member (id : Nat)
  | role (id : Nat)
deriving DecidableEq

/-- A `discord.PermissionOverwrite` restricted to the two permissions the
cogs set: each is allow (`some true`), deny (`some false`) or inherit
(`none`). -/
structure Overwrite where
  read_messages : Option Bool
  send_messages : Option Bool
deriving DecidableEq

/-- Overwrite `PermissionOverwrite(read_messages=False)`, used for `guild.default_role`. -/
def denyEveryone : Overwrite := ⟨some false, none⟩

/-- Overwrite `PermissionOverwrite(read_messages=True, send_messages=True)`. -/
def allowRW : Overwrite := ⟨some true, some true⟩

/-- The `overwrites` Python dict, as the finite map it denotes. -/
def OwDict := PermTarget → Option Overwrite

/-- Python dict assignment `d[k] = v`. -/
def owSet (d : OwDict) (k : PermTarget) (v : Overwrite) : OwDict :=
  fun q => if q = k then some v else d q

/-- The empty dict. -/
def owEmpty : OwDict := fun _ => none

/-- Python `s.startswith(pre)`, written on the character lists so that it
evaluates by kernel reduction. -/
def strStartsWith (s pre : String) : Bool := pre.data.isPrefixOf s.data

/-- Python `s.endswith(suffix)`, written on the character lists. -/
def strEndsWith (s suffix : String) : Bool := suffix.data.isSuffixOf s.data

/-- Python `s.lower()`, written on the character list. -/
def strToLower (s : String) : String := ⟨s.data.map Char.toLower⟩

/-- Constant `GANG_ROLE_PREFIX = "Gang-"` from `ticket_tool.py`. -/
def gangRoleTag : String := "Gang-"

/-- Python `[r for r in interaction.user.roles if r.name.startswith(GANG_ROLE_PREFIX)]`. -/
def gangRolesOf (user : Member) : List Role :=
  user.roles.filter (fun r => strStartsWith r.name gangRoleTag)

/-- The `overwrites` dict built by `TicketForm.on_submit` (ticket_tool.py
lines 224-237): deny `read_messages` to `@everyone`; read+write to the
requester, to `guild.me` (member id `meId`) and, when
`guild.get_role(STAFF_ROLE_ID)` found it, to the staff role; for a gang
ticket whose requester holds at least one `Gang-`-prefixed role,
additionally read+write to every member of the first such role.
`SupportButton.create_support_ticket` (support_ticket.py lines 201-207)
builds the same dict with `isGang = false`. -/
def build_overwrites (user : Member) (meId : Nat) (staffRole : Option Role)
    (isGang : Bool) : OwDict :=
  let d0 := owSet owEmpty .defaultRole denyEveryone
  let d1 := owSet d0 (.member user.id) allowRW
  let d2 := owSet d1 (.member meId) allowRW
  let d3 := match staffRole with
    | some r => owSet d2 (.role r.id) allowRW
    | none => d2
  if isGang then
    match gangRolesOf user with
    | [] => d3
    | g :: _ => g.members.foldl (fun d m => owSet d (.member m) allowRW) d3
  else d3

/-- Whether the staff-role entry of the dict matches key `k`. -/
def staffMatches : Option Role → PermTarget → Bool
  | some r, k => k = PermTarget.role r.id
  | none, _ => false

/-- Whether the gang-sharing loop of the dict construction wrote key `k`:
only for a gang ticket, and only for members of the first gang-prefixed
role of the requester. -/
def gangMatches (user : Member) (isGang : Bool) (k : PermTarget) : Bool :=
  isGang && (match gangRolesOf user with
    | [] => false
    | g :: _ => g.members.any (fun m => k = PermTarget.member m))

/-- The keys the source construction grants read+write. -/
def grantedRW (user : Member) (meId : Nat) (staffRole : Option Role)
    (isGang : Bool) (k : PermTarget) : Bool :=
  (k = PermTarget.member user.id) || (k = PermTarget.member meId) ||
  staffMatches staffRole k || gangMatches user isGang k

/-- Result of one call of `get_next_ticket_number`: either the returned
number together with the new counter state, or a raised exception. -/
inductive AllocResult
  | ok (n : Nat) (file : Option Nat)
  | err (msg : String)
deriving DecidableEq

/-- Behaviour of `get_next_ticket_number` as a function of the current
counter state.  The source's local-fallback behaviour is
`localAllocBehaviour`; an unreachable durable store is a behaviour that
returns `.err`. -/
def AllocBehaviour := Option Nat → AllocResult

/-- The local fallback path of `get_next_ticket_number`, as an
`AllocBehaviour` (it never raises). -/
def localAllocBehaviour : AllocBehaviour := fun f =>
  .ok (get_next_ticket_number_local f).1 (get_next_ticket_number_local f).2

/-- Behaviour of `get_next_ticket_number` when the counter store is unreachable: the
awaited increment raises. -/
def failingAllocBehaviour : AllocBehaviour := fun _ => .err "store unreachable"

/-- The mutable environment a creation request touches: the counter state
and the names of the channels created so far. -/
structure World where
  counterFile : Option Nat
  channels : List String
deriving DecidableEq

/-- Outcome of `TicketForm.on_submit`. -/
inductive SubmitResult
  | configError
  | created (channelName : String) (number : Nat) (topic : String) (grants : OwDict)

/-- Handler `TicketForm.on_submit` (ticket_tool.py lines 207-264): check that the
active category exists (else answer with a configuration error and stop);
call `get_next_ticket_number()`, and on an exception fall back to
`ticket_number = 1` (lines 216-220); build the channel name
`gang-ticket-{n}` / `ticket-{n}`, build the overwrites dict, and create the
channel with `topic=str(interaction.user.id)`.
`SupportButton.create_support_ticket` (support_ticket.py lines 185-216) is
the same flow with `isGang = false`, names `support-{n}` and the same
fallback to 1 (lines 195-198). -/
def ticketOnSubmit (isGang : Bool) (user : Member) (meId : Nat)
    (staffRole : Option Role) (categoryOk : Bool) (alloc : AllocBehaviour)
    (w : World) : SubmitResult × World :=
  if categoryOk then
    let r := match alloc w.counterFile with
      | .ok n f => (n, { w with counterFile := f })
      | .err _ => (1, w)
    let channelName := (if isGang then "gang-ticket-" else "ticket-") ++ toString r.1
    (.created channelName r.1 (toString user.id)
        (build_overwrites user meId staffRole isGang),
      { r.2 with channels := r.2.channels ++ [channelName] })
  else (.configError, w)

/-- Outcome of pressing the "Create Gang Ticket" button. -/
inductive GangButtonResult
  | permissionDenied
  | submitted (r : SubmitResult)

/-- Handler `TicketButton.create_gang_ticket` (ticket_tool.py lines 279-290)
composed with the submission of the modal it opens: if the requester holds
no `Gang-`-prefixed role the handler answers with the permission warning
and returns before opening the form (no allocation, no channel); otherwise
the opened form's `on_submit` runs with `is_gang_ticket=True`. -/
def create_gang_ticket (user : Member) (meId : Nat) (staffRole : Option Role)
    (categoryOk : Bool) (alloc : AllocBehaviour) (w : World) :
    GangButtonResult × World :=
  if gangRolesOf user = [] then (.permissionDenied, w)
  else
    let r := ticketOnSubmit true user meId staffRole categoryOk alloc w
    (.submitted r.1, r.2)

/-- The lifecycle states the claims speak about. -/
inductive TicketState
  | Open
  | PendingClose
  | Closed
deriving DecidableEq

/-- Answer of the close-button handler. -/
inductive CloseDecision
  | denied
  | confirmWindow
deriving DecidableEq

/-- Python `staff_role and staff_role in interaction.user.roles`:
`guild.get_role(STAFF_ROLE_ID)` may return `None` (falsy); otherwise the
role must be among the requester's roles. -/
def hasStaffRole (userRoles : List Role) : Option Role → Bool
  | some r => decide (r ∈ userRoles)
  | none => false

/-- Handler `CloseTicketView.close_ticket` (ticket_tool.py lines 148-155) and the
identical `CloseSupportView.close_ticket` (support_ticket.py lines
128-137): `creator_id = getattr(channel, "topic", None)`; the request is
rejected when `str(interaction.user.id) != creator_id` and the user lacks
the staff role; otherwise the confirmation view is offered. -/
def close_ticket (userId : Nat) (userRoles : List Role) (topic : Option String)
    (staffRole : Option Role) : CloseDecision :=
  if topic ≠ some (toString userId) ∧ hasStaffRole userRoles staffRole = false then
    .denied
  else .confirmWindow

/-- One close request against a ticket in state `st`: a denial leaves the
state untouched; an accepted request opens the 30-second confirmation
window (the pending-close state of the spec's machine). -/
def close_request (st : TicketState) (userId : Nat) (userRoles : List Role)
    (topic : Option String) (staffRole : Option Role) :
    CloseDecision × TicketState :=
  match close_ticket userId userRoles topic staffRole with
  | .denied => (.denied, st)
  | .confirmWindow => (.confirmWindow, .PendingClose)

/-- The observable actions of `ConfirmCloseView.confirm`
(ticket_tool.py lines 165-185); `ConfirmSupportClose.confirm`
(support_ticket.py lines 147-171) performs the same sequence. -/
inductive CloseEv
  | render
  | sendLog
  | saveArchive
  | removeTemp
  | logException
  | sendNotice
  | sleep3
  | deleteChannel
deriving DecidableEq

/-- The steps of the `try` block of `ConfirmCloseView.confirm`, in source
order: render the transcript (which also writes the temp file), send it to
the log channel when `guild.get_channel(LOG_CHANNEL_ID)` found one, attempt
the Mongo archival save (reading the temp file back first), remove the temp
file. -/
def confirmTrySteps (logPresent : Bool) : List CloseEv :=
  [.render] ++ (if logPresent then [.sendLog] else []) ++ [.saveArchive, .removeTemp]

/-- Handler `ConfirmCloseView.confirm` as an event trace.  `failAt = none`: no step
of the `try` block raises.  `failAt = some i`: the `i`-th step (0-based) of
the `try` block raises — the steps before it completed, the raising step is
recorded as attempted, the rest are skipped, and the `except` arm logs the
exception.  In every case the handler then sends the deletion notice,
sleeps 3 seconds and deletes the channel. -/
def confirm_close (logPresent : Bool) (failAt : Option Nat) : List CloseEv :=
  (match failAt with
    | none => confirmTrySteps logPresent
    | some i => (confirmTrySteps logPresent).take (i + 1) ++ [.logException])
  ++ [.sendNotice, .sleep3, .deleteChannel]

/-- The metadata document `save_transcript_to_mongo` /
`save_support_transcript_to_mongo` insert (`created_at` as an abstract
instant). -/
structure TranscriptDoc where
  guild_id : Nat
  guild_name : String
  channel_id : Nat
  channel_name : String
  closed_by_name : Option String
  created_at : Nat
  transcript_html : String
deriving DecidableEq

/-- The Mongo database: collection name → documents in insertion order. -/
def MongoDB := String → List TranscriptDoc

/-- Mongo `collection.insert_one(doc)`. -/
def insert_one (db : MongoDB) (coll : String) (d : TranscriptDoc) : MongoDB :=
  fun c => if c = coll then db c ++ [d] else db c

/-- Mongo `collection.find_one({"channel_name": name})`: the first document in
natural (insertion) order whose `channel_name` equals `name`. -/
def find_one_by_channel_name (db : MongoDB) (coll : String) (name : String) :
    Option TranscriptDoc :=
  (db coll).find? (fun d => d.channel_name = name)

/-- Setting `MONGO_COLLECTION` defaults to `"transcripts"` in `ticket_tool.py`. -/
def ticketCollection : String := "transcripts"

/-- Module `support_ticket.py` hard-codes collection `"support"`. -/
def supportCollection : String := "support"

/-- Function `save_transcript_to_mongo` (ticket_tool.py lines 119-137) on the path
where Mongo is configured and the insert succeeds. -/
def save_transcript_to_mongo (db : MongoDB) (d : TranscriptDoc) : MongoDB :=
  insert_one db ticketCollection d

/-- Function `save_support_transcript_to_mongo` (support_ticket.py lines 100-117) on
the successful path. -/
def save_support_transcript_to_mongo (db : MongoDB) (d : TranscriptDoc) : MongoDB :=
  insert_one db supportCollection d

/-- Command `TicketTool.backup_ticket` (ticket_tool.py lines 344-368): look up
`ticket-{n}` in the transcripts collection, then `gang-ticket-{n}`; return
the found channel name with the stored `transcript_html`, or `none` (the
"No transcript found" NotFound answer). -/
def backup_ticket (db : MongoDB) (ticketNumber : String) :
    Option (String × String) :=
  match find_one_by_channel_name db ticketCollection ("ticket-" ++ ticketNumber) with
  | some doc => some ("ticket-" ++ ticketNumber, doc.transcript_html)
  | none =>
    match find_one_by_channel_name db ticketCollection
        ("gang-ticket-" ++ ticketNumber) with
    | some doc => some ("gang-ticket-" ++ ticketNumber, doc.transcript_html)
    | none => none

/-- Modelled from the spec: `ArchiveStore.get` for the `support` scope.
The source saves support transcripts keyed by `channel_name`
(`save_support_transcript_to_mongo`) but ships no retrieval command for
them; spec §4.6 specifies `get(scope, number)` as a keyed lookup by the
deterministic channel-name-derived key, which for the support scope is
`support-{number}` in the `support` collection. -/
def get_support_transcript (db : MongoDB) (ticketNumber : String) :
    Option String :=
  (find_one_by_channel_name db supportCollection
    ("support-" ++ ticketNumber)).map (fun d => d.transcript_html)

/-- One `name`/`value` pair of `embed.fields`. -/
structure EmbedField where
  name : String
  value : String
deriving DecidableEq

/-- A message embed as `create_transcript` reads it; `""` models a missing
(falsy) title or description, matching the Python truthiness tests. -/
structure MsgEmbed where
  title : String
  description : String
  fields : List EmbedField
deriving DecidableEq

/-- An attachment: its filename and its CDN URL (which embeds the
user-chosen filename). -/
structure Attachment where
  filename : String
  url : String
deriving DecidableEq

/-- One message of the channel history: `str(msg.author)`, the formatted
`msg.created_at`, the content (`""` = falsy, skipped), embeds and
attachments. -/
structure Msg where
  authorStr : String
  timestampStr : String
  content : String
  embeds : List MsgEmbed
  attachments : List Attachment
deriving DecidableEq

/-- Python `fname.lower().endswith((".png", ".jpg", ".jpeg", ".gif", ".webp"))`,
applied by the source to the already-escaped filename. -/
def isImageFilename (fname : String) : Bool :=
  strEndsWith (strToLower fname) ".png" || strEndsWith (strToLower fname) ".jpg" ||
  strEndsWith (strToLower fname) ".jpeg" || strEndsWith (strToLower fname) ".gif" ||
  strEndsWith (strToLower fname) ".webp"

/-- The attachment fragment of `create_transcript` (lines 104-109): the
filename is escaped (`fname = html.escape(attachment.filename)`, also the
string whose extension is tested), the URL is interpolated verbatim. -/
def renderAttachment (a : Attachment) : String :=
  if isImageFilename (htmlEscape a.filename) then
    "<img src=\"" ++ a.url ++ "\" alt=\"" ++ htmlEscape a.filename ++ "\">"
  else
    "<a href=\"" ++ a.url ++ "\">" ++ htmlEscape a.filename ++ "</a>"

/-- The embed fragment of `create_transcript` (lines 95-103). -/
def renderEmbed (e : MsgEmbed) : String :=
  "<div class=\"embed\">"
  ++ (if e.title ≠ "" then
        "<div class=\"embed-title\">" ++ htmlEscape e.title ++ "</div>"
      else "")
  ++ (if e.description ≠ "" then
        "<div class=\"content\">" ++ htmlEscape e.description ++ "</div>"
      else "")
  ++ joinStr (e.fields.map (fun f =>
        "<div><b>" ++ htmlEscape f.name ++ ":</b> " ++ htmlEscape f.value ++ "</div>"))
  ++ "</div>"

/-- One message block of `create_transcript` (lines 89-110). -/
def renderMsg (m : Msg) : String :=
  "<div class=\"msg\"><span class=\"author\">" ++ htmlEscape m.authorStr
  ++ "</span><span class=\"time\">[" ++ m.timestampStr ++ "]</span>"
  ++ (if m.content ≠ "" then
        "<div class=\"content\">" ++ htmlEscape m.content ++ "</div>"
      else "")
  ++ joinStr (m.embeds.map renderEmbed)
  ++ joinStr (m.attachments.map renderAttachment)
  ++ "</div>\n"

/-- The document head of `create_transcript` (lines 72-88): title, style
block and the `Generated:` line holding `datetime.utcnow()` formatted at
render time. -/
def transcriptHeader (channelName guildName generatedAt : String) : String :=
  "<!doctype html>\n<html><head><meta charset=\x27utf-8\x27>\n<title>Transcript - "
  ++ htmlEscape channelName
  ++ "</title>\n<style>\nbody \x7bbackground:#2f3136;color:#dcddde;font-family:Arial,sans-serif\x7d\n.msg\x7bmargin:8px;padding:8px;border-bottom:1px solid #444\x7d\n.author\x7bcolor:#7289da;font-weight:bold\x7d\n.time\x7bcolor:#999;font-size:0.85em;margin-left:6px\x7d\n.content\x7bmargin-top:4px;white-space:pre-wrap\x7d\n.embed\x7bmargin:8px 0;padding:8px;border-left:4px solid #5865f2;background:#2c2f33\x7d\n.embed-title\x7bcolor:#00b0f4;font-weight:bold\x7d\nimg\x7bmax-width:400px;border-radius:4px;margin-top:4px\x7d\n</style></head><body>\n<h2>Transcript for #"
  ++ htmlEscape channelName
  ++ "</h2>\n<p>Server: " ++ htmlEscape guildName ++ "<br>\nGenerated: "
  ++ generatedAt ++ "</p><hr>\n"

/-- The HTML document `create_transcript` (lines 69-115) writes: the
header, one block per message accumulated with `+=` over the oldest-first
history, and the closing tags.  `generatedAt` is
`datetime.utcnow().strftime("%Y-%m-%d %H:%M:%S UTC")` at render time — an
input the document genuinely depends on. -/
def create_transcript_html (channelName guildName generatedAt : String)
    (history : List Msg) : String :=
  (history.foldl (fun acc m => acc ++ renderMsg m)
    (transcriptHeader channelName guildName generatedAt)) ++ "</body></html>"

/-- Number of occurrences of character `c` in `s`. -/
def countChar (c : Char) (s : String) : Nat := s.data.count c

/-- The `<`/`>` contribution of one rendered embed that comes from the
fixed markup (identical for both characters): the surrounding `div`, the
optional title and description blocks, and four per field. -/
def embedTagShape (e : MsgEmbed) : Nat :=
  2 + (if e.title ≠ "" then 2 else 0) + (if e.description ≠ "" then 2 else 0)
    + 4 * e.fields.length

/-- The `c`-count of one rendered attachment: the fixed markup (1 for an
inline image, 2 for a link — identical for `<` and `>`) plus the raw,
unescaped characters of the URL. -/
def attachTagShape (c : Char) (a : Attachment) : Nat :=
  (if isImageFilename (htmlEscape a.filename) then 1 else 2) + countChar c a.url

/-- The `c`-count of one rendered message block: fixed markup (6, plus 2
when the content block is present, identical for `<` and `>`), the embeds'
markup, the attachments' markup plus their raw URLs, and the raw timestamp
string. -/
def msgTagShape (c : Char) (m : Msg) : Nat :=
  6 + (if m.content ≠ "" then 2 else 0)
    + (m.embeds.map embedTagShape).sum
    + (m.attachments.map (attachTagShape c)).sum
    + countChar c m.timestampStr

/-- Support infrastructure for reasoning about `toString` on `Nat` (the
source stores `str(interaction.user.id)` in the channel topic): the digit
list of `Nat.repr`, written as a structural recursion. -/
def digitsAux (n : Nat) : List Char :=
  if n < 10 then [Nat.digitChar n]
  else digitsAux (n / 10) ++ [Nat.digitChar (n % 10)]
decreasing_by exact Nat.div_lt_self (by omega) (by omega)

end TicketBot

namespace TicketBot

theorem runLocalAllocator_some_eq (N : Nat) : ∀ s : Nat,
    (runLocalAllocator N (some s)).1 = (List.range N).map (fun i => s + 1 + i) := by
  induction N with
  | zero => intro s; simp [runLocalAllocator]
  | succ n ih =>
    intro s
    have h1 : (runLocalAllocator (n + 1) (some s)).1
        = (s + 1) :: (runLocalAllocator n (some (s + 1))).1 := rfl
    rw [h1, ih (s + 1), List.range_succ_eq_map, List.map_cons, List.map_map]
    congr 1
    apply List.map_congr_left
    intro i _
    simp only [Function.comp_apply]
    omega

/-- Claim C2: in the local-fallback path (no durable store) the allocator
never returns the same value twice for a scope: each call reads the
persisted counter (missing file = 0), returns it plus one and persists the
new value, so `N` successive calls return `N` distinct, strictly
increasing, consecutive integers starting right above the persisted
value. -/
theorem local_allocator_no_reuse (N : Nat) (f : Option Nat) :
    (runLocalAllocator N f).1 = (List.range N).map (fun i => f.getD 0 + 1 + i) ∧
    (runLocalAllocator N f).1.Nodup ∧
    (runLocalAllocator N f).1.Pairwise (· < ·) := by
  have hbase : (runLocalAllocator N f).1 = (List.range N).map (fun i => f.getD 0 + 1 + i) := by
    cases f with
    | none =>
      cases N with
      | zero => simp [runLocalAllocator]
      | succ n =>
        have h1 : (runLocalAllocator (n + 1) none).1
            = 1 :: (runLocalAllocator n (some 1)).1 := rfl
        rw [h1, runLocalAllocator_some_eq n 1, List.range_succ_eq_map, List.map_cons,
          List.map_map]
        congr 1
        apply List.map_congr_left
        intro i _
        simp only [Function.comp_apply, Option.getD_none]
        omega
    | some s => exact runLocalAllocator_some_eq N s
  refine ⟨hbase, ?_, ?_⟩
  · rw [hbase]
    refine List.Nodup.map ?_ (List.nodup_range N)
    intro a b h
    have h' : f.getD 0 + 1 + a = f.getD 0 + 1 + b := h
    omega
  · rw [hbase, List.pairwise_map]
    refine (List.pairwise_lt_range N).imp ?_
    intro a b h
    show f.getD 0 + 1 + a < f.getD 0 + 1 + b
    omega

/-- Claim C1: evaluation of `TicketForm.on_submit` at the failing input.
When `get_next_ticket_number()` raises (counter store unreachable), the
handler does not abort and surface the failure: the `except` arm sets
`ticket_number = 1` and the creation proceeds, producing the potentially
colliding channel `ticket-1` (ticket_tool.py lines 216-220;
support_ticket.py lines 195-198 behave the same way). -/
theorem alloc_failure_not_aborted :
    ticketOnSubmit false ⟨77, []⟩ 5 none true failingAllocBehaviour ⟨some 41, []⟩
      = (.created "ticket-1" 1 "77" (build_overwrites ⟨77, []⟩ 5 none false),
         ⟨some 41, ["ticket-1"]⟩) := rfl

/-- Claim C6: a gang-ticket request by a requester holding no
`Gang-`-prefixed role is answered with the permission warning before the
form is even opened: no grants are computed, no channel is created and the
counter state is untouched. -/
theorem gang_request_without_gang_role_denied (user : Member) (meId : Nat)
    (staffRole : Option Role) (categoryOk : Bool) (alloc : AllocBehaviour)
    (w : World) (h : gangRolesOf user = []) :
    create_gang_ticket user meId staffRole categoryOk alloc w
      = (.permissionDenied, w) := by
  simp [create_gang_ticket, h]

theorem gang_request_without_gang_role_denied_witness :
    gangRolesOf ⟨9, [⟨3, "Citizen", [9]⟩]⟩ = [] ∧
    create_gang_ticket ⟨9, [⟨3, "Citizen", [9]⟩]⟩ 5 none true localAllocBehaviour
        ⟨some 4, ["ticket-4"]⟩
      = (.permissionDenied, ⟨some 4, ["ticket-4"]⟩) :=
  ⟨by decide, gang_request_without_gang_role_denied _ _ _ _ _ _ (by decide)⟩

/-- Claim C3: in every execution of `ConfirmCloseView.confirm` — whichever
step of the `try` block raises, if any — the channel deletion is the last
event, occurs exactly once, and when nothing raises both the transcript
rendering and the archival-save attempt precede it; an archival failure
(a raising try-step) does not prevent the teardown. -/
theorem teardown_after_archival_attempt (logPresent : Bool) (failAt : Option Nat) :
    ∃ pre, confirm_close logPresent failAt
        = pre ++ [CloseEv.sendNotice, CloseEv.sleep3, CloseEv.deleteChannel] ∧
      CloseEv.deleteChannel ∉ pre ∧
      (failAt = none → CloseEv.render ∈ pre ∧ CloseEv.saveArchive ∈ pre) := by
  refine ⟨(match failAt with
    | none => confirmTrySteps logPresent
    | some i => (confirmTrySteps logPresent).take (i + 1) ++ [.logException]),
    rfl, ?_, ?_⟩
  · cases failAt with
    | none => cases logPresent <;> decide
    | some i =>
      intro hmem
      rcases List.mem_append.1 hmem with hmem | hmem
      · have h2 := List.take_subset (i + 1) (confirmTrySteps logPresent) hmem
        cases logPresent <;> revert h2 <;> decide
      · simp at hmem
  · intro hf
    subst hf
    cases logPresent <;> decide

theorem teardown_after_archival_attempt_witness :
    ∃ pre, confirm_close true none
        = pre ++ [CloseEv.sendNotice, CloseEv.sleep3, CloseEv.deleteChannel] ∧
      CloseEv.deleteChannel ∉ pre ∧
      (CloseEv.render ∈ pre ∧ CloseEv.saveArchive ∈ pre) := by
  obtain ⟨pre, h1, h2, h3⟩ := teardown_after_archival_attempt true none
  exact ⟨pre, h1, h2, h3 rfl⟩

theorem insert_one_apply_same (db : MongoDB) (coll : String) (d : TranscriptDoc) :
    insert_one db coll d coll = db coll ++ [d] := by
  unfold insert_one
  simp

theorem find_one_insert_same (db : MongoDB) (coll name : String) (d : TranscriptDoc)
    (h : find_one_by_channel_name db coll name = none) (hd : d.channel_name = name) :
    find_one_by_channel_name (insert_one db coll d) coll name = some d := by
  unfold find_one_by_channel_name at h ⊢
  rw [insert_one_apply_same, List.find?_append, h]
  simp [List.find?, hd]

theorem find_one_insert_other (db : MongoDB) (coll name : String) (d : TranscriptDoc)
    (h : find_one_by_channel_name db coll name = none) (hd : d.channel_name ≠ name) :
    find_one_by_channel_name (insert_one db coll d) coll name = none := by
  unfold find_one_by_channel_name at h ⊢
  rw [insert_one_apply_same, List.find?_append, h]
  simp [List.find?, hd]

theorem gang_name_ne_ticket_name (n : String) :
    "gang-ticket-" ++ n ≠ "ticket-" ++ n := by
  intro h
  have h2 := congrArg String.length h
  rw [String.length_append, String.length_append] at h2
  have e1 : ("gang-ticket-" : String).length = 12 := rfl
  have e2 : ("ticket-" : String).length = 7 := rfl
  omega

/-- Claim C7: ArchiveStore round trip.  For each scope, retrieving by the
channel-name-derived key after a successful save of that key returns the
saved transcript, provided the key was not already present (the spec's
at-most-one-artifact-per-ticket invariant); retrieving a key for which no
save occurred returns NotFound.  The normal and gang scopes go through
`backup_ticket`; the support scope has no retrieval command in the source
and is settled against the spec-modelled `get_support_transcript`. -/
theorem archive_roundtrip (db : MongoDB) (n : String) (d : TranscriptDoc) :
    (d.channel_name = "ticket-" ++ n →
      find_one_by_channel_name db ticketCollection ("ticket-" ++ n) = none →
      backup_ticket (save_transcript_to_mongo db d) n
        = some ("ticket-" ++ n, d.transcript_html)) ∧
    (d.channel_name = "gang-ticket-" ++ n →
      find_one_by_channel_name db ticketCollection ("ticket-" ++ n) = none →
      find_one_by_channel_name db ticketCollection ("gang-ticket-" ++ n) = none →
      backup_ticket (save_transcript_to_mongo db d) n
        = some ("gang-ticket-" ++ n, d.transcript_html)) ∧
    (d.channel_name = "support-" ++ n →
      find_one_by_channel_name db supportCollection ("support-" ++ n) = none →
      get_support_transcript (save_support_transcript_to_mongo db d) n
        = some d.transcript_html) ∧
    (find_one_by_channel_name db ticketCollection ("ticket-" ++ n) = none →
      find_one_by_channel_name db ticketCollection ("gang-ticket-" ++ n) = none →
      backup_ticket db n = none) ∧
    (find_one_by_channel_name db supportCollection ("support-" ++ n) = none →
      get_support_transcript db n = none) := by
  refine ⟨?_, ?_, ?_, ?_, ?_⟩
  · intro hd h1
    unfold backup_ticket save_transcript_to_mongo
    rw [find_one_insert_same db _ _ d h1 hd]
  · intro hd h1 h2
    unfold backup_ticket save_transcript_to_mongo
    rw [find_one_insert_other db _ _ d h1 (hd ▸ gang_name_ne_ticket_name n),
      find_one_insert_same db _ _ d h2 hd]
  · intro hd h1
    unfold get_support_transcript save_support_transcript_to_mongo
    rw [find_one_insert_same db _ _ d h1 hd]
    rfl
  · intro h1 h2
    unfold backup_ticket
    rw [h1, h2]
  · intro h1
    unfold get_support_transcript
    rw [h1]
    rfl

theorem archive_roundtrip_witness :
    backup_ticket (save_transcript_to_mongo (fun _ => [])
        ⟨1, "G", 2, "ticket-1", some "mod", 0, "<html>x</html>"⟩) "1"
      = some ("ticket-1", "<html>x</html>") ∧
    backup_ticket (fun _ => []) "1" = none := by
  have h := archive_roundtrip (fun _ => []) "1"
    ⟨1, "G", 2, "ticket-1", some "mod", 0, "<html>x</html>"⟩
  exact ⟨h.1 rfl rfl, h.2.2.2.1 rfl rfl⟩

theorem digitsAux_lt (n : Nat) (h : n < 10) : digitsAux n = [Nat.digitChar n] := by
  rw [digitsAux, if_pos h]

theorem digitsAux_ge (n : Nat) (h : ¬n < 10) :
    digitsAux n = digitsAux (n / 10) ++ [Nat.digitChar (n % 10)] := by
  rw [digitsAux, if_neg h]

theorem toDigitsCore_eq_digitsAux (fuel : Nat) : ∀ (n : Nat) (ds : List Char),
    n < fuel → Nat.toDigitsCore 10 fuel n ds = digitsAux n ++ ds := by
  induction fuel with
  | zero => intro n ds h; omega
  | succ f ih =>
    intro n ds h
    show (if n / 10 = 0 then Nat.digitChar (n % 10) :: ds
      else Nat.toDigitsCore 10 f (n / 10) (Nat.digitChar (n % 10) :: ds))
        = digitsAux n ++ ds
    by_cases h10 : n / 10 = 0
    · rw [if_pos h10]
      have hn : n < 10 := by omega
      rw [digitsAux_lt n hn, Nat.mod_eq_of_lt hn, List.singleton_append]
    · have hge : ¬n < 10 := by omega
      have hfuel : n / 10 < f := by omega
      rw [if_neg h10, ih (n / 10) (Nat.digitChar (n % 10) :: ds) hfuel,
        digitsAux_ge n hge, List.append_assoc, List.singleton_append]

theorem digitsAux_ne_nil (n : Nat) : digitsAux n ≠ [] := by
  rw [digitsAux]
  split
  · simp
  · simp

theorem digitChar_inj_lt : ∀ a < 10, ∀ b < 10,
    Nat.digitChar a = Nat.digitChar b → a = b := by decide

theorem digitsAux_inj (m : Nat) : ∀ n, digitsAux m = digitsAux n → m = n := by
  induction m using Nat.strong_induction_on with
  | _ m ih =>
    intro n h
    by_cases hm : m < 10 <;> by_cases hn : n < 10
    · rw [digitsAux_lt m hm, digitsAux_lt n hn] at h
      injection h with h1 _
      exact digitChar_inj_lt m hm n hn h1
    · exfalso
      rw [digitsAux_lt m hm, digitsAux_ge n hn] at h
      have hlen := congrArg List.length h
      have hpos : 0 < (digitsAux (n / 10)).length :=
        List.length_pos.2 (digitsAux_ne_nil (n / 10))
      rw [List.length_append] at hlen
      simp only [List.length_singleton] at hlen
      omega
    · exfalso
      rw [digitsAux_ge m hm, digitsAux_lt n hn] at h
      have hlen := congrArg List.length h
      have hpos : 0 < (digitsAux (m / 10)).length :=
        List.length_pos.2 (digitsAux_ne_nil (m / 10))
      rw [List.length_append] at hlen
      simp only [List.length_singleton] at hlen
      omega
    · rw [digitsAux_ge m hm, digitsAux_ge n hn] at h
      obtain ⟨h1, h2⟩ := List.append_inj' h rfl
      have hdiv : m / 10 = n / 10 :=
        ih (m / 10) (Nat.div_lt_self (by omega) (by omega)) (n / 10) h1
      injection h2 with h2' _
      have hmod : m % 10 = n % 10 :=
        digitChar_inj_lt (m % 10) (Nat.mod_lt m (by omega)) (n % 10)
          (Nat.mod_lt n (by omega)) h2'
      omega

theorem natRepr_inj {m n : Nat} (h : Nat.repr m = Nat.repr n) : m = n := by
  unfold Nat.repr Nat.toDigits at h
  rw [toDigitsCore_eq_digitsAux (m + 1) m [] (by omega),
    toDigitsCore_eq_digitsAux (n + 1) n [] (by omega), List.append_nil,
    List.append_nil] at h
  exact digitsAux_inj m n (congrArg String.data h)

theorem toString_nat_inj {m n : Nat} (h : toString m = toString n) : m = n :=
  natRepr_inj h

/-- Claim C4: a close request on an open ticket whose topic carries the
creator id (as set at creation, ticket_tool.py line 240) is rejected for
every requester who is neither the creator nor a holder of the staff role:
the handler answers with the permission message, no confirmation window
opens and the ticket state is unchanged. -/
theorem close_request_by_stranger_denied (creatorId userId : Nat)
    (userRoles : List Role) (staffRole : Option Role)
    (hne : userId ≠ creatorId)
    (hstaff : hasStaffRole userRoles staffRole = false) :
    close_request .Open userId userRoles (some (toString creatorId)) staffRole
      = (.denied, .Open) := by
  have hts : some (toString creatorId) ≠ some (toString userId) := by
    intro hh
    injection hh with hh'
    exact hne (toString_nat_inj hh').symm
  unfold close_request close_ticket
  rw [if_pos ⟨hts, hstaff⟩]

theorem close_request_by_stranger_denied_witness :
    (11 : Nat) ≠ 10 ∧ hasStaffRole [] none = false ∧
    close_request .Open 11 [] (some (toString (10 : Nat))) none
      = (.denied, .Open) :=
  ⟨by decide, rfl, close_request_by_stranger_denied 10 11 [] none (by decide) rfl⟩

/-- Claim C10: close authorization is decided solely by comparing the
requester's id rendered as a decimal string against the channel topic: when
the topic is absent or holds anything other than that string, the request
is denied unless the requester holds the staff role, and any staff-role
holder is accepted — so with a cleared or edited topic even the original
creator is locked out and only staff can close. -/
theorem topic_based_close_authorization (userId : Nat) (userRoles : List Role)
    (topic : Option String) (staffRole : Option Role)
    (htopic : topic ≠ some (toString userId)) :
    (hasStaffRole userRoles staffRole = false →
      close_request .Open userId userRoles topic staffRole = (.denied, .Open)) ∧
    (∀ r, staffRole = some r → r ∈ userRoles →
      close_request .Open userId userRoles topic staffRole
        = (.confirmWindow, .PendingClose)) := by
  constructor
  · intro hstaff
    unfold close_request close_ticket
    rw [if_pos ⟨htopic, hstaff⟩]
  · intro r hr hmem
    have hstaff : hasStaffRole userRoles staffRole = true := by
      subst hr
      simpa [hasStaffRole] using hmem
    unfold close_request close_ticket
    rw [if_neg (fun hc => by simp [hstaff] at hc)]

theorem owSet_foldl (l : List Nat) : ∀ (d : OwDict) (k : PermTarget),
    (l.foldl (fun d m => owSet d (.member m) allowRW) d) k
      = if l.any (fun m => k = PermTarget.member m) then some allowRW else d k := by
  induction l with
  | nil => intro d k; simp
  | cons m rest ih =>
    intro d k
    rw [List.foldl_cons, ih]
    by_cases hk : k = PermTarget.member m
    · simp [hk, owSet]
    · simp [hk, owSet]

theorem build_overwrites_eval (user : Member) (meId : Nat) (staffRole : Option Role)
    (isGang : Bool) (k : PermTarget) :
    build_overwrites user meId staffRole isGang k =
      if gangMatches user isGang k then some allowRW
      else if staffMatches staffRole k then some allowRW
      else if k = PermTarget.member meId then some allowRW
      else if k = PermTarget.member user.id then some allowRW
      else if k = PermTarget.defaultRole then some denyEveryone
      else none := by
  unfold build_overwrites gangMatches staffMatches
  cases hgr : gangRolesOf user with
  | nil =>
    cases staffRole with
    | none => cases isGang <;> simp [owSet, owEmpty]
    | some r => cases isGang <;> simp [owSet, owEmpty]
  | cons g gs =>
    cases staffRole with
    | none => cases isGang <;> simp [owSet, owEmpty, owSet_foldl]
    | some r => cases isGang <;> simp [owSet, owEmpty, owSet_foldl]

/-- Claim C5: the computed permission dict denies `read_messages` to the
everyone role and maps precisely the requester, the bot identity
(`guild.me`), the staff role when `guild.get_role` found it, and — for a
gang ticket whose requester holds a gang-prefixed role — every member of
the first matching role (and of no later matching role) to read+write;
every other key is absent. -/
theorem overwrites_exactly (user : Member) (meId : Nat) (staffRole : Option Role)
    (isGang : Bool) (k : PermTarget) :
    build_overwrites user meId staffRole isGang k =
      if k = PermTarget.defaultRole then some denyEveryone
      else if grantedRW user meId staffRole isGang k then some allowRW
      else none := by
  rw [build_overwrites_eval]
  by_cases hd : k = PermTarget.defaultRole
  · subst hd
    have h1 : staffMatches staffRole PermTarget.defaultRole = false := by
      cases staffRole <;> simp [staffMatches]
    have h2 : gangMatches user isGang PermTarget.defaultRole = false := by
      unfold gangMatches
      cases gangRolesOf user <;> cases isGang <;> simp
    simp [h1, h2]
  · rw [if_neg hd]
    unfold grantedRW
    by_cases hg : gangMatches user isGang k = true
    · simp [hg, hd]
    · by_cases hs : staffMatches staffRole k = true
      · simp [hg, hs, hd]
      · by_cases hme : k = PermTarget.member meId
        · simp [hg, hs, hme, hd]
        · by_cases hu : k = PermTarget.member user.id
          · simp [hg, hs, hme, hu]
          · simp [hg, hs, hme, hu, hd]

theorem topic_based_close_authorization_witness :
    close_request .Open 5 [⟨1, "Staff", [5]⟩] none (some ⟨1, "Staff", [5]⟩)
      = (.confirmWindow, .PendingClose) ∧
    close_request .Open 5 [] none none = (.denied, .Open) := by
  have h1 := topic_based_close_authorization 5 [⟨1, "Staff", [5]⟩] none
    (some ⟨1, "Staff", [5]⟩) (by simp)
  have h2 := topic_based_close_authorization 5 [] none none (by simp)
  exact ⟨h1.2 _ rfl (by simp), h2.1 rfl⟩

theorem foldl_append_renderMsg (l : List Msg) : ∀ init : String,
    l.foldl (fun acc m => acc ++ renderMsg m) init
      = init ++ joinStr (l.map renderMsg) := by
  induction l with
  | nil =>
    intro init
    show init = init ++ ""
    simp
  | cons m rest ih =>
    intro init
    rw [List.foldl_cons, ih, List.map_cons]
    show (init ++ renderMsg m) ++ joinStr (rest.map renderMsg)
      = init ++ (renderMsg m ++ joinStr (rest.map renderMsg))
    rw [String.append_assoc]

/-- Claim C8 (amended): the rendered document is a deterministic function
of the channel name, guild name, generation timestamp and ordered history —
it decomposes into the fixed header (which embeds the render-time
timestamp) followed by one block per message, in exactly the order of the
oldest-first input history, and the closing tags.  With the generation
timestamp fixed, re-rendering the same history yields the identical
document. -/
theorem transcript_structure (channelName guildName generatedAt : String)
    (history : List Msg) :
    create_transcript_html channelName guildName generatedAt history
      = transcriptHeader channelName guildName generatedAt
        ++ joinStr (history.map renderMsg) ++ "</body></html>" := by
  unfold create_transcript_html
  rw [foldl_append_renderMsg]

set_option maxRecDepth 16384

/-- Claim C8 counterexample: the document is not a function of the message
history alone — the source interpolates `datetime.utcnow()` into the
`Generated:` header line, so two renderings of the same (here: empty)
history at different instants differ. -/
theorem transcript_not_history_function :
    create_transcript_html "ticket-1" "G" "2025-01-01 00:00:00 UTC" []
      ≠ create_transcript_html "ticket-1" "G" "2025-01-02 00:00:00 UTC" [] := by
  decide

/-- Claim C9 counterexample: the URL target of an attachment link is
embedded verbatim, not HTML-escaped — here a URL carrying `&` appears raw
in the rendered block even though `html.escape` would have rewritten it. -/
theorem attachment_url_embedded_unescaped :
    renderMsg ⟨"alice", "2025-01-01 00:00:00", "", [],
        [⟨"report.txt", "https://cdn.example/report.txt?ex=1&hm=2"⟩]⟩
      = "<div class=\"msg\"><span class=\"author\">alice</span><span class=\"time\">[2025-01-01 00:00:00]</span><a href=\"https://cdn.example/report.txt?ex=1&hm=2\">report.txt</a></div>\n" ∧
    htmlEscape "https://cdn.example/report.txt?ex=1&hm=2"
      ≠ "https://cdn.example/report.txt?ex=1&hm=2" := by
  decide

theorem countChar_append (c : Char) (a b : String) :
    countChar c (a ++ b) = countChar c a + countChar c b := by
  unfold countChar
  rw [String.data_append, List.count_append]

theorem countChar_joinStr (c : Char) (l : List String) :
    countChar c (joinStr l) = (l.map (countChar c)).sum := by
  induction l with
  | nil => rfl
  | cons s rest ih =>
    rw [show joinStr (s :: rest) = s ++ joinStr rest from rfl, countChar_append,
      ih, List.map_cons, List.sum_cons]

theorem countChar_htmlEscapeChar_tag (c ch : Char) (hc : c = '<' ∨ c = '>') :
    countChar c (htmlEscapeChar ch) = 0 := by
  unfold htmlEscapeChar
  split_ifs with h1 h2 h3 h4 h5
  · rcases hc with rfl | rfl <;> decide
  · rcases hc with rfl | rfl <;> decide
  · rcases hc with rfl | rfl <;> decide
  · rcases hc with rfl | rfl <;> decide
  · rcases hc with rfl | rfl <;> decide
  · have hne : ch ≠ c := by
      rcases hc with rfl | rfl
      · exact h2
      · exact h3
    simp [countChar, String.singleton, List.count_cons, hne]

theorem countChar_htmlEscape_tag (c : Char) (hc : c = '<' ∨ c = '>')
    (s : String) : countChar c (htmlEscape s) = 0 := by
  unfold htmlEscape
  rw [countChar_joinStr, List.map_map]
  apply List.sum_eq_zero
  intro x hx
  rcases List.mem_map.1 hx with ⟨ch, _, rfl⟩
  exact countChar_htmlEscapeChar_tag c ch hc

theorem sum_map_const_nat {α : Type} (l : List α) (k : Nat) :
    (l.map (fun _ => k)).sum = k * l.length := by
  induction l with
  | nil => simp
  | cons a rest ih =>
    simp only [List.map_cons, List.sum_cons, List.length_cons, ih]
    ring

theorem countChar_renderEmbed_tag (c : Char) (hc : c = '<' ∨ c = '>')
    (e : MsgEmbed) : countChar c (renderEmbed e) = embedTagShape e := by
  have hA : countChar c "<div class=\"embed\">" = 1 := by
    rcases hc with rfl | rfl <;> decide
  have hZ : countChar c "</div>" = 1 := by
    rcases hc with rfl | rfl <;> decide
  have hT : countChar c (if e.title ≠ "" then
      "<div class=\"embed-title\">" ++ htmlEscape e.title ++ "</div>" else "")
      = if e.title ≠ "" then 2 else 0 := by
    by_cases ht : e.title ≠ ""
    · rw [if_pos ht, if_pos ht]
      simp only [countChar_append]
      rw [countChar_htmlEscape_tag c hc]
      have h1 : countChar c "<div class=\"embed-title\">" = 1 := by
        rcases hc with rfl | rfl <;> decide
      omega
    · rw [if_neg ht, if_neg ht]
      rfl
  have hD : countChar c (if e.description ≠ "" then
      "<div class=\"content\">" ++ htmlEscape e.description ++ "</div>" else "")
      = if e.description ≠ "" then 2 else 0 := by
    by_cases ht : e.description ≠ ""
    · rw [if_pos ht, if_pos ht]
      simp only [countChar_append]
      rw [countChar_htmlEscape_tag c hc]
      have h1 : countChar c "<div class=\"content\">" = 1 := by
        rcases hc with rfl | rfl <;> decide
      omega
    · rw [if_neg ht, if_neg ht]
      rfl
  have hF : countChar c (joinStr (e.fields.map (fun f =>
      "<div><b>" ++ htmlEscape f.name ++ ":</b> " ++ htmlEscape f.value ++ "</div>")))
      = 4 * e.fields.length := by
    rw [countChar_joinStr, List.map_map]
    have hfield : ∀ f : EmbedField,
        (countChar c ∘ fun f => "<div><b>" ++ htmlEscape f.name ++ ":</b> "
          ++ htmlEscape f.value ++ "</div>") f = 4 := by
      intro f
      simp only [Function.comp_apply, countChar_append]
      rw [countChar_htmlEscape_tag c hc, countChar_htmlEscape_tag c hc]
      have h1 : countChar c "<div><b>" = 2 := by rcases hc with rfl | rfl <;> decide
      have h2 : countChar c ":</b> " = 1 := by rcases hc with rfl | rfl <;> decide
      have h3 : countChar c "</div>" = 1 := by rcases hc with rfl | rfl <;> decide
      omega
    rw [List.map_congr_left (fun f _ => hfield f), sum_map_const_nat]
  unfold renderEmbed embedTagShape
  simp only [countChar_append]
  omega

theorem countChar_renderAttachment_tag (c : Char) (hc : c = '<' ∨ c = '>')
    (a : Attachment) : countChar c (renderAttachment a) = attachTagShape c a := by
  unfold renderAttachment attachTagShape
  by_cases hi : isImageFilename (htmlEscape a.filename)
  · rw [if_pos hi, if_pos hi]
    simp only [countChar_append]
    rw [countChar_htmlEscape_tag c hc]
    rcases hc with rfl | rfl
    · have h1 : countChar '<' "<img src=\"" = 1 := by decide
      have h2 : countChar '<' "\" alt=\"" = 0 := by decide
      have h3 : countChar '<' "\">" = 0 := by decide
      omega
    · have h1 : countChar '>' "<img src=\"" = 0 := by decide
      have h2 : countChar '>' "\" alt=\"" = 0 := by decide
      have h3 : countChar '>' "\">" = 1 := by decide
      omega
  · rw [if_neg hi, if_neg hi]
    simp only [countChar_append]
    rw [countChar_htmlEscape_tag c hc]
    rcases hc with rfl | rfl
    · have h1 : countChar '<' "<a href=\"" = 1 := by decide
      have h2 : countChar '<' "\">" = 0 := by decide
      have h3 : countChar '<' "</a>" = 1 := by decide
      omega
    · have h1 : countChar '>' "<a href=\"" = 0 := by decide
      have h2 : countChar '>' "\">" = 1 := by decide
      have h3 : countChar '>' "</a>" = 1 := by decide
      omega

theorem countChar_renderMsg_tag (c : Char) (hc : c = '<' ∨ c = '>') (m : Msg) :
    countChar c (renderMsg m) = msgTagShape c m := by
  have hA : countChar c "<div class=\"msg\"><span class=\"author\">" = 2 := by
    rcases hc with rfl | rfl <;> decide
  have hB : countChar c "</span><span class=\"time\">[" = 2 := by
    rcases hc with rfl | rfl <;> decide
  have hC : countChar c "]</span>" = 1 := by
    rcases hc with rfl | rfl <;> decide
  have hZ : countChar c "</div>\n" = 1 := by
    rcases hc with rfl | rfl <;> decide
  have hContent : countChar c (if m.content ≠ "" then
      "<div class=\"content\">" ++ htmlEscape m.content ++ "</div>" else "")
      = if m.content ≠ "" then 2 else 0 := by
    by_cases ht : m.content ≠ ""
    · rw [if_pos ht, if_pos ht]
      simp only [countChar_append]
      rw [countChar_htmlEscape_tag c hc]
      have h1 : countChar c "<div class=\"content\">" = 1 := by
        rcases hc with rfl | rfl <;> decide
      have h2 : countChar c "</div>" = 1 := by
        rcases hc with rfl | rfl <;> decide
      omega
    · rw [if_neg ht, if_neg ht]
      rfl
  have hEmb : countChar c (joinStr (m.embeds.map renderEmbed))
      = (m.embeds.map embedTagShape).sum := by
    rw [countChar_joinStr, List.map_map]
    congr 1
    refine List.map_congr_left (fun e _ => ?_)
    simp only [Function.comp_apply]
    exact countChar_renderEmbed_tag c hc e
  have hAtt : countChar c (joinStr (m.attachments.map renderAttachment))
      = (m.attachments.map (attachTagShape c)).sum := by
    rw [countChar_joinStr, List.map_map]
    congr 1
    refine List.map_congr_left (fun a _ => ?_)
    simp only [Function.comp_apply]
    exact countChar_renderAttachment_tag c hc a
  unfold renderMsg msgTagShape
  simp only [countChar_append]
  rw [countChar_htmlEscape_tag c hc]
  omega

/-- Claim C9 (amended): every listed user-text field except the attachment
URL target — message content, author name, embed title, embed description,
embed field names and values, and the displayed attachment filename — is
HTML-escaped before embedding; the URL target (and the platform-formatted
timestamp) is interpolated verbatim.  Hence the number of raw `<` and `>`
characters of a rendered message block is fully determined by the message's
structure plus the raw characters of its attachment URLs and timestamp,
independently of all the escaped user texts. -/
theorem rendered_tags_structural (m : Msg) :
    countChar '<' (renderMsg m) = msgTagShape '<' m ∧
    countChar '>' (renderMsg m) = msgTagShape '>' m :=
  ⟨countChar_renderMsg_tag '<' (Or.inl rfl) m,
   countChar_renderMsg_tag '>' (Or.inr rfl) m⟩

end TicketBot
